import Mathlib

/-!
Shallow embedding of `custom_components/polestar_api/entity.py`.

Python values held by the coordinator's data sub-objects are modelled by an
arbitrary type `V`.  A Python object reached by `getattr` is modelled by a
`DataObject`: an association list of its attributes (an attribute may be bound
to Python `None`, modelled by `Option.none`) together with its Python
truthiness (`bool(obj)`), which is object-specific in Python (`not data` and
`data is None` differ for falsy non-None objects such as empty containers).

Fallible operations return sum-like results: raising `ValueError` in
`__post_init__` becomes `DescInitResult.valueError`, raising
`PolestarEntityDataSourceException` in `get_native_value` becomes
`NativeValueResult.dataSourceException`.  Logging calls are not modelled.
-/

namespace PolestarApi

/-- Python truthiness of a string: `bool(s)` is `False` exactly for `""`. -/
def stringTruthy (s : String) : Bool :=
  !s.isEmpty

/-- The `PolestarEntityDataSource` `StrEnum` from `entity.py`. -/
inductive PolestarEntityDataSource where
  | INFORMATION
  | ODOMETER
  | BATTERY
  | HEALTH
deriving DecidableEq, Repr

/-- The string value of each `StrEnum` member. -/
def PolestarEntityDataSource.value : PolestarEntityDataSource → String
  | .INFORMATION => "car_information_data"
  | .ODOMETER => "car_odometer_data"
  | .BATTERY => "car_battery_data"
  | .HEALTH => "car_health_data"

/-- Python truthiness of a `StrEnum` member: truthiness of its string value. -/
def sourceValueTruthy (s : PolestarEntityDataSource) : Bool :=
  stringTruthy s.value

/-- Python truthiness of the optional `data_source` field (`bool(None)` is
`False`). -/
def sourceTruthy : Option PolestarEntityDataSource → Bool
  | none => false
  | some s => sourceValueTruthy s

/-- Python truthiness of the optional `data_state_attribute` field. -/
def attrTruthy : Option String → Bool
  | none => false
  | some a => stringTruthy a

/-- Python truthiness of the optional `data_extra_state_attributes` dict
(`bool` of a dict is `False` exactly when it is empty). -/
def dictTruthy {α : Type} : Option (List α) → Bool
  | none => false
  | some m => !m.isEmpty

/-- A Python object reached through `getattr`, as seen by `entity.py`: its
attribute table (a bound value may itself be Python `None`) and its
truthiness. -/
structure DataObject (V : Type) where
  attrs : List (String × Option V)
  truthy : Bool

/-- Python `hasattr(d, a)`. -/
def DataObject.hasattr {V : Type} (d : DataObject V) (a : String) : Bool :=
  (d.attrs.lookup a).isSome

/-- Python `getattr(d, a, None)`: `None` when the attribute is absent or bound
to `None`. -/
def DataObject.getattr {V : Type} (d : DataObject V) (a : String) : Option V :=
  (d.attrs.lookup a).getD none

/-- The `PolestarEntityDescription` dataclass: `key` is inherited from the
host `EntityDescription`; the four `data_*` fields are declared in
`entity.py`. -/
structure PolestarEntityDescription (V : Type) where
  key : String
  data_source : Option PolestarEntityDataSource := none
  data_state_attribute : Option String := none
  data_state_fn : Option (V → V) := none
  data_extra_state_attributes : Option (List (String × String)) := none

/-- Result of running the dataclass constructor (`__post_init__` may raise
`ValueError`). -/
inductive DescInitResult (V : Type) where
  | ok (d : PolestarEntityDescription V)
  | valueError

/-- The `__post_init__` validation: raise `ValueError` when
`bool(self.data_source) != bool(self.data_state_attribute)`. -/
def PolestarEntityDescription.post_init {V : Type} (d : PolestarEntityDescription V) :
    DescInitResult V :=
  if sourceTruthy d.data_source ≠ attrTruthy d.data_state_attribute then
    .valueError
  else
    .ok d

/-- Modelled from the spec: `coordinator.py` is not under `src/`.  The spec
says the coordinator "holds polled vehicle data (information, odometer,
battery, health)" and is only read by the entity; `vin`, `model`, `name` and
`get_short_id()` are the identifier inputs used by `entity.py`.  Each data
field is Python `None` (`Option.none`) or some object. -/
structure PolestarCoordinator (V : Type) where
  vin : String
  short_id : String
  model : Option String
  name : String
  car_information_data : Option (DataObject V)
  car_odometer_data : Option (DataObject V)
  car_battery_data : Option (DataObject V)
  car_health_data : Option (DataObject V)

/-- Modelled from the spec: the coordinator's `get_short_id()` accessor used
in `entity_id`; its computation lives in `coordinator.py`, outside `src/`, so
its result is treated as an abstract field. -/
def PolestarCoordinator.get_short_id {V : Type} (c : PolestarCoordinator V) : String :=
  c.short_id

/-- Python `getattr(coordinator, data_source, None)` where `data_source` is a
`PolestarEntityDataSource` member naming one of the four data attributes. -/
def PolestarCoordinator.getSource {V : Type} (c : PolestarCoordinator V) :
    PolestarEntityDataSource → Option (DataObject V)
  | .INFORMATION => c.car_information_data
  | .ODOMETER => c.car_odometer_data
  | .BATTERY => c.car_battery_data
  | .HEALTH => c.car_health_data

/-- Result of `get_native_value`: either the distinguished
`PolestarEntityDataSourceException`, or a returned value (`Option.none` models
the bare `return`, i.e. Python `None`). -/
inductive NativeValueResult (V : Type) where
  | dataSourceException
  | value (v : Option V)

/-- The final expression of `get_native_value`:
`data_state_fn(value) if data_state_fn else value` (a function object is
always truthy). -/
def applyStateFn {V : Type} : Option (V → V) → V → V
  | some f, v => f v
  | none, v => v

/-- `PolestarEntity.get_native_value`, as a function of the coordinator's
current state and the entity's descriptor.  Mirrors `entity.py` lines
145-188: guard `not (data_source and data_state_attribute)` raises; `data`
falsy (`not data`, covering Python `None` and falsy objects) returns `None`;
missing attribute returns `None`; `None`-valued attribute returns `None`;
otherwise the optional transform is applied. -/
def get_native_value {V : Type} (coord : PolestarCoordinator V)
    (desc : PolestarEntityDescription V) : NativeValueResult V :=
  match desc.data_source, desc.data_state_attribute with
  | some src, some attr =>
    if sourceValueTruthy src && stringTruthy attr then
      match coord.getSource src with
      | none => .value none
      | some data =>
        if !data.truthy then .value none
        else if !data.hasattr attr then .value none
        else
          match data.getattr attr with
          | none => .value none
          | some v => .value (some (applyStateFn desc.data_state_fn v))
    else .dataSourceException
  | _, _ => .dataSourceException

/-- `PolestarEntity.get_extra_state_attributes`, as a function of the
coordinator's current state and the entity's descriptor.  Mirrors `entity.py`
lines 96-143: guard `not (data_source and data_extra_state_attributes)`
returns `None`; `data is None` returns `None`; otherwise a dict is built
whose entries are `getattr(data, data_attribute, None)`, with `None` recorded
for a missing attribute. -/
def get_extra_state_attributes {V : Type} (coord : PolestarCoordinator V)
    (desc : PolestarEntityDescription V) : Option (List (String × Option V)) :=
  match desc.data_source, desc.data_extra_state_attributes with
  | some src, some mapping =>
    if sourceValueTruthy src && !mapping.isEmpty then
      match coord.getSource src with
      | none => none
      | some data =>
        some (mapping.map fun p =>
          (p.1, if data.hasattr p.2 then data.getattr p.2 else none))
    else none
  | _, _ => none

/-- The host framework's `DeviceInfo` fields set by `PolestarEntity.__init__`. -/
structure DeviceInfo where
  identifiers : List (String × String)
  manufacturer : String
  model : Option String
  name : String
  serial_number : String

/-- Modelled from the spec: `const.py` is not under `src/`; `DOMAIN` is the
integration's domain string used as the `entity_id` prefix.  Its concrete
value is immaterial to every claim. -/
def DOMAIN : String := "polestar"

/-- Modelled from the spec: `const.py` is not under `src/`; `ATTRIBUTION` is a
fixed attribution string. -/
def ATTRIBUTION : String := "Data provided by Polestar"

/-- The mutable attributes of a `PolestarEntity` instance set by `__init__`
and `_handle_coordinator_update`.  `_attr_extra_state_attributes` is
`Option`-wrapped because `__init__` only sets the attribute when
`data_extra_state_attributes` is truthy (`none` models
`hasattr(self, "_attr_extra_state_attributes") == False`). -/
structure PolestarEntity (V : Type) where
  entity_description : PolestarEntityDescription V
  entity_id : String
  _attr_unique_id : String
  _attr_translation_key : String
  _attr_device_info : DeviceInfo
  _attr_extra_state_attributes : Option (List (String × Option V))

/-- Python `x or {}` applied to the result of `get_extra_state_attributes`:
a falsy result (`None` or the empty dict) is replaced by `{}`. -/
def orEmptyDict {V : Type} : Option (List (String × Option V)) → List (String × Option V)
  | none => []
  | some l => if l.isEmpty then [] else l

/-- `PolestarEntity.__init__` (`entity.py` lines 65-87): identifier strings
from the coordinator and descriptor key, the device-info dict, and, when
`data_extra_state_attributes` is truthy, the initial
`_attr_extra_state_attributes`. -/
def PolestarEntity.init {V : Type} (coordinator : PolestarCoordinator V)
    (entity_description : PolestarEntityDescription V) : PolestarEntity V :=
  { entity_description := entity_description
    entity_id :=
      DOMAIN ++ ".polestar_" ++ coordinator.get_short_id ++ "_" ++ entity_description.key
    _attr_unique_id := "polestar_" ++ coordinator.vin ++ "_" ++ entity_description.key
    _attr_translation_key := "polestar_" ++ entity_description.key
    _attr_device_info :=
      { identifiers := [(DOMAIN, coordinator.vin)]
        manufacturer := "Polestar"
        model := coordinator.model
        name := coordinator.name
        serial_number := coordinator.vin }
    _attr_extra_state_attributes :=
      if dictTruthy entity_description.data_extra_state_attributes then
        some (orEmptyDict (get_extra_state_attributes coordinator entity_description))
      else
        none }

/-- `PolestarEntity._handle_coordinator_update` (`entity.py` lines 89-94):
when `_attr_extra_state_attributes` has been set, refresh it from
`get_extra_state_attributes() or {}` against the coordinator's current state.
The call to the host superclass method is outside the embedding. -/
def handle_coordinator_update {V : Type} (coordinator : PolestarCoordinator V)
    (e : PolestarEntity V) : PolestarEntity V :=
  if (e._attr_extra_state_attributes).isSome then
    { e with
      _attr_extra_state_attributes :=
        some (orEmptyDict (get_extra_state_attributes coordinator e.entity_description)) }
  else
    e

/-- The state visible to the entity's methods: the shared coordinator object
and the entity's own attributes. -/
structure World (V : Type) where
  coordinator : PolestarCoordinator V
  entity : PolestarEntity V

/-- `get_native_value` as an explicit state transformer: every statement of
the Python method threads the world through unchanged, since the method body
assigns only to the locals `data` and `value`.  Used to settle the frame and
determinism claims. -/
def get_native_value_st {V : Type} (w : World V) : NativeValueResult V × World V :=
  match (w.entity.entity_description).data_source,
      (w.entity.entity_description).data_state_attribute with
  | some src, some attr =>
    if sourceValueTruthy src && stringTruthy attr then
      let data := w.coordinator.getSource src
      match data with
      | none => (.value none, w)
      | some d =>
        if !d.truthy then (.value none, w)
        else if !d.hasattr attr then (.value none, w)
        else
          let value := d.getattr attr
          match value with
          | none => (.value none, w)
          | some v =>
            (.value (some (applyStateFn (w.entity.entity_description).data_state_fn v)), w)
    else (.dataSourceException, w)
  | _, _ => (.dataSourceException, w)

/-- `get_extra_state_attributes` as an explicit state transformer: the body
assigns only to the locals `data` and `res`, so every branch returns the
world unchanged. -/
def get_extra_state_attributes_st {V : Type} (w : World V) :
    Option (List (String × Option V)) × World V :=
  match (w.entity.entity_description).data_source,
      (w.entity.entity_description).data_extra_state_attributes with
  | some src, some mapping =>
    if sourceValueTruthy src && !mapping.isEmpty then
      let data := w.coordinator.getSource src
      match data with
      | none => (none, w)
      | some d =>
        (some (mapping.map fun p =>
          (p.1, if d.hasattr p.2 then d.getattr p.2 else none)), w)
    else (none, w)
  | _, _ => (none, w)

/-- Entity states reachable for a fixed descriptor: construction against some
coordinator state, then any number of coordinator-update callbacks, each
observing the coordinator's state at callback time. -/
inductive EntityReachable {V : Type} (desc : PolestarEntityDescription V) :
    PolestarEntity V → Prop where
  | init (coord : PolestarCoordinator V) :
      EntityReachable desc (PolestarEntity.init coord desc)
  | update (coord : PolestarCoordinator V) (e : PolestarEntity V) :
      EntityReachable desc e → EntityReachable desc (handle_coordinator_update coord e)

/-- Concrete truthy data object used to evaluate the theorems: a battery
object exposing `charge` with value `42` and `empty_field` bound to `None`. -/
def sampleData : DataObject Nat :=
  { attrs := [("charge", some 42), ("empty_field", none)], truthy := true }

/-- Concrete falsy but non-`None` data object (Python truthiness `False`,
e.g. an empty container type) that still carries a `charge` attribute. -/
def falsyData : DataObject Nat :=
  { attrs := [("charge", some 7)], truthy := false }

/-- Concrete coordinator state: battery data present and truthy, the other
three data sources `None`. -/
def sampleCoordinator : PolestarCoordinator Nat :=
  { vin := "VIN123", short_id := "123", model := some "Polestar 2", name := "My Polestar"
    car_information_data := none, car_odometer_data := none
    car_battery_data := some sampleData, car_health_data := none }

/-- Concrete coordinator state whose battery data is present but falsy. -/
def falsyCoordinator : PolestarCoordinator Nat :=
  { vin := "VIN123", short_id := "123", model := some "Polestar 2", name := "My Polestar"
    car_information_data := none, car_odometer_data := none
    car_battery_data := some falsyData, car_health_data := none }

/-- Concrete descriptor with both `data_source` and `data_state_attribute`. -/
def descBoth : PolestarEntityDescription Nat :=
  { key := "battery_charge", data_source := some .BATTERY
    data_state_attribute := some "charge" }

/-- Concrete descriptor targeting the `INFORMATION` source, which is `None`
on `sampleCoordinator`. -/
def descInfo : PolestarEntityDescription Nat :=
  { key := "info_field", data_source := some .INFORMATION
    data_state_attribute := some "charge" }

/-- Concrete descriptor with only `data_source` supplied; its construction
violates the `__post_init__` invariant. -/
def descOnlySource : PolestarEntityDescription Nat :=
  { key := "bad", data_source := some .BATTERY }

/-- Concrete descriptor with neither `data_source` nor
`data_state_attribute`. -/
def descNeither : PolestarEntityDescription Nat :=
  { key := "plain" }

/-- Concrete descriptor naming an attribute absent from `sampleData`. -/
def descNoSuch : PolestarEntityDescription Nat :=
  { key := "battery_missing", data_source := some .BATTERY
    data_state_attribute := some "no_such" }

/-- Concrete descriptor naming the attribute of `sampleData` bound to
`None`. -/
def descEmptyField : PolestarEntityDescription Nat :=
  { key := "battery_empty", data_source := some .BATTERY
    data_state_attribute := some "empty_field" }

/-- Concrete descriptor with a `data_state_fn` transform. -/
def descFn : PolestarEntityDescription Nat :=
  { key := "battery_charge", data_source := some .BATTERY
    data_state_attribute := some "charge", data_state_fn := some (fun v => v + 1) }

/-- Concrete descriptor with an extra-state-attributes mapping whose second
entry names an attribute absent from the data objects. -/
def descExtra : PolestarEntityDescription Nat :=
  { key := "battery_charge", data_source := some .BATTERY
    data_state_attribute := some "charge"
    data_extra_state_attributes := some [("charge_level", "charge"), ("missing", "no_such")] }

theorem sourceValueTruthy_eq_true (s : PolestarEntityDataSource) :
    sourceValueTruthy s = true := by
  cases s <;> rfl

theorem hasattr_guard_eq_getattr {V : Type} (d : DataObject V) (a : String) :
    (if d.hasattr a then d.getattr a else none) = d.getattr a := by
  unfold DataObject.hasattr DataObject.getattr
  cases d.attrs.lookup a <;> simp

theorem get_native_value_st_frame {V : Type} (w : World V) :
    (get_native_value_st w).2 = w := by
  unfold get_native_value_st
  split
  · split
    · dsimp only
      split
      · rfl
      · split
        · rfl
        · split
          · rfl
          · split <;> rfl
    · rfl
  · rfl

theorem get_extra_state_attributes_st_frame {V : Type} (w : World V) :
    (get_extra_state_attributes_st w).2 = w := by
  unfold get_extra_state_attributes_st
  split
  · split
    · dsimp only
      split <;> rfl
    · rfl
  · rfl

theorem reachable_entity_description {V : Type} {desc : PolestarEntityDescription V}
    {e : PolestarEntity V} (h : EntityReachable desc e) :
    e.entity_description = desc := by
  induction h with
  | init coord => rfl
  | update coord e _ ih =>
      unfold handle_coordinator_update
      split
      · exact ih
      · exact ih

theorem reachable_extra_isSome {V : Type} {desc : PolestarEntityDescription V}
    {e : PolestarEntity V} (hdict : dictTruthy desc.data_extra_state_attributes = true)
    (h : EntityReachable desc e) :
    (e._attr_extra_state_attributes).isSome = true := by
  induction h with
  | init coord =>
      unfold PolestarEntity.init
      simp [hdict]
  | update coord e _ ih =>
      unfold handle_coordinator_update
      split <;> rfl

/-- C1: a `PolestarEntityDescription` construction succeeds exactly when
`data_source` and `data_state_attribute` are both truthy or both falsy, so on
every successfully constructed descriptor the two are truthy together;
supplying exactly one (truthy) raises `ValueError`. -/
theorem c1_source_and_attribute_supplied_together {V : Type}
    (d : PolestarEntityDescription V) :
    (d.post_init = DescInitResult.ok d ↔
      sourceTruthy d.data_source = attrTruthy d.data_state_attribute)
    ∧ (sourceTruthy d.data_source ≠ attrTruthy d.data_state_attribute →
      d.post_init = DescInitResult.valueError) := by
  unfold PolestarEntityDescription.post_init
  refine ⟨?_, ?_⟩ <;> split <;> simp_all

/-- C1 witness: `descBoth` (both supplied) constructs; `descOnlySource`
(only the source supplied) raises `ValueError`. -/
theorem c1_witness :
    PolestarEntityDescription.post_init descBoth = DescInitResult.ok descBoth
    ∧ PolestarEntityDescription.post_init descOnlySource = DescInitResult.valueError :=
  ⟨(c1_source_and_attribute_supplied_together descBoth).1.mpr (by rfl),
   (c1_source_and_attribute_supplied_together descOnlySource).2 (by decide)⟩

/-- C2: on any descriptor that passed `__post_init__`, `get_native_value`
raises `PolestarEntityDataSourceException` exactly when both `data_source`
and `data_state_attribute` are lacking (falsy); when both are present it
never raises that exception. -/
theorem c2_exception_iff_descriptor_lacks_both {V : Type}
    (coord : PolestarCoordinator V) (desc : PolestarEntityDescription V)
    (hvalid : desc.post_init = DescInitResult.ok desc) :
    get_native_value coord desc = NativeValueResult.dataSourceException ↔
      (sourceTruthy desc.data_source = false ∧ attrTruthy desc.data_state_attribute = false) := by
  have hba : sourceTruthy desc.data_source = attrTruthy desc.data_state_attribute := by
    by_cases h : sourceTruthy desc.data_source = attrTruthy desc.data_state_attribute
    · exact h
    · unfold PolestarEntityDescription.post_init at hvalid
      rw [if_pos h] at hvalid
      cases hvalid
  rcases hds : desc.data_source with _ | src
  · rcases hat : desc.data_state_attribute with _ | attr
    · simp [get_native_value, hds, hat, sourceTruthy, attrTruthy]
    · rw [hds, hat] at hba
      simp only [sourceTruthy, attrTruthy] at hba
      simp [get_native_value, hds, hat, sourceTruthy, attrTruthy, ← hba]
  · rcases hat : desc.data_state_attribute with _ | attr
    · rw [hds, hat] at hba
      simp [sourceTruthy, attrTruthy, sourceValueTruthy_eq_true] at hba
    · rw [hds, hat] at hba
      simp only [sourceTruthy, attrTruthy, sourceValueTruthy_eq_true] at hba
      unfold get_native_value
      rw [hds, hat]
      simp [sourceTruthy, attrTruthy, sourceValueTruthy_eq_true, ← hba]
      split
      · simp
      · split
        · simp
        · split
          · simp
          · split <;> simp

/-- C2 witness: a descriptor lacking both raises the exception. -/
theorem c2_witness :
    get_native_value sampleCoordinator descNeither = NativeValueResult.dataSourceException :=
  (c2_exception_iff_descriptor_lacks_both sampleCoordinator descNeither rfl).mpr ⟨rfl, rfl⟩

/-- C3: with both `data_source` and `data_state_attribute` configured
(truthy), `get_native_value` returns `None` when the sub-object is absent
(`None`) on the coordinator, when the named attribute is absent from the
sub-object, and when the attribute's value is `None`. -/
theorem c3_native_value_none_on_missing_data {V : Type}
    (coord : PolestarCoordinator V) (desc : PolestarEntityDescription V)
    (src : PolestarEntityDataSource) (attr : String)
    (hds : desc.data_source = some src) (hat : desc.data_state_attribute = some attr)
    (htr : stringTruthy attr = true) :
    (coord.getSource src = none → get_native_value coord desc = NativeValueResult.value none)
    ∧ (∀ d : DataObject V, coord.getSource src = some d → d.hasattr attr = false →
        get_native_value coord desc = NativeValueResult.value none)
    ∧ (∀ d : DataObject V, coord.getSource src = some d → d.getattr attr = none →
        get_native_value coord desc = NativeValueResult.value none) := by
  refine ⟨?_, ?_, ?_⟩
  · intro hnone
    unfold get_native_value
    rw [hds, hat]
    simp [sourceValueTruthy_eq_true, htr, hnone]
  · intro d hd hnoattr
    unfold get_native_value
    rw [hds, hat]
    cases htruthy : d.truthy <;>
      simp [sourceValueTruthy_eq_true, htr, hd, hnoattr, htruthy]
  · intro d hd hgat
    unfold get_native_value
    rw [hds, hat]
    cases htruthy : d.truthy <;> cases hhas : d.hasattr attr <;>
      simp [sourceValueTruthy_eq_true, htr, hd, hgat, htruthy, hhas]

/-- C3 witness: absent sub-object, absent attribute, and `None`-valued
attribute all yield `None`. -/
theorem c3_witness :
    get_native_value sampleCoordinator descInfo = NativeValueResult.value none
    ∧ get_native_value sampleCoordinator descNoSuch = NativeValueResult.value none
    ∧ get_native_value sampleCoordinator descEmptyField = NativeValueResult.value none :=
  ⟨(c3_native_value_none_on_missing_data sampleCoordinator descInfo
      PolestarEntityDataSource.INFORMATION "charge" rfl rfl rfl).1 rfl,
   (c3_native_value_none_on_missing_data sampleCoordinator descNoSuch
      PolestarEntityDataSource.BATTERY "no_such" rfl rfl rfl).2.1 sampleData rfl rfl,
   (c3_native_value_none_on_missing_data sampleCoordinator descEmptyField
      PolestarEntityDataSource.BATTERY "empty_field" rfl rfl rfl).2.2 sampleData rfl rfl⟩

/-- C4 counterexample: on `falsyCoordinator` the battery sub-object is
present (not `None`) and its `charge` attribute holds the non-`None` value
`7`, yet `get_native_value` with `descBoth` (no transform configured)
returns `None` rather than `7`, because the code tests `not data` (Python
truthiness), not `data is None`. -/
theorem c4_counterexample :
    falsyCoordinator.getSource PolestarEntityDataSource.BATTERY = some falsyData
    ∧ falsyData.getattr "charge" = some 7
    ∧ descBoth.data_state_fn = none
    ∧ get_native_value falsyCoordinator descBoth = NativeValueResult.value none
    ∧ get_native_value falsyCoordinator descBoth ≠ NativeValueResult.value (some 7) := by
  refine ⟨rfl, rfl, rfl, rfl, ?_⟩
  intro h
  rw [show get_native_value falsyCoordinator descBoth = NativeValueResult.value none from rfl] at h
  simp at h

/-- C4 (amended): with both `data_source` and `data_state_attribute`
configured (truthy), when the coordinator's sub-object is present and truthy
and the named attribute holds a non-`None` value `v`, `get_native_value`
returns `data_state_fn(v)` if a transform is configured and `v` otherwise. -/
theorem c4_transform_applied_on_truthy_data {V : Type}
    (coord : PolestarCoordinator V) (desc : PolestarEntityDescription V)
    (src : PolestarEntityDataSource) (attr : String) (d : DataObject V) (v : V)
    (hds : desc.data_source = some src) (hat : desc.data_state_attribute = some attr)
    (htr : stringTruthy attr = true) (hd : coord.getSource src = some d)
    (htruthy : d.truthy = true) (hv : d.getattr attr = some v) :
    get_native_value coord desc = NativeValueResult.value (some (applyStateFn desc.data_state_fn v)) := by
  have hhas : d.hasattr attr = true := by
    unfold DataObject.hasattr
    unfold DataObject.getattr at hv
    cases hl : d.attrs.lookup attr
    · rw [hl] at hv
      simp at hv
    · rfl
  unfold get_native_value
  rw [hds, hat]
  simp [sourceValueTruthy_eq_true, htr, hd, htruthy, hhas, hv]

/-- C4 witness: with the transform `v + 1` configured the battery charge `42`
is returned as `43`; without a transform it is returned unchanged. -/
theorem c4_witness :
    get_native_value sampleCoordinator descFn = NativeValueResult.value (some 43)
    ∧ get_native_value sampleCoordinator descBoth = NativeValueResult.value (some 42) :=
  ⟨(c4_transform_applied_on_truthy_data sampleCoordinator descFn
      PolestarEntityDataSource.BATTERY "charge" sampleData 42
      rfl rfl rfl rfl rfl rfl).trans (by rfl),
   (c4_transform_applied_on_truthy_data sampleCoordinator descBoth
      PolestarEntityDataSource.BATTERY "charge" sampleData 42
      rfl rfl rfl rfl rfl rfl).trans (by rfl)⟩

/-- C5: `get_native_value` and `get_extra_state_attributes`, run as state
transformers over the coordinator and the entity's own attributes, leave the
whole state unchanged on every input. -/
theorem c5_getters_do_not_mutate_state {V : Type} (w : World V) :
    (get_native_value_st w).2 = w ∧ (get_extra_state_attributes_st w).2 = w :=
  ⟨get_native_value_st_frame w, get_extra_state_attributes_st_frame w⟩

/-- C6: for a descriptor whose `data_extra_state_attributes` is configured
(truthy), `_attr_extra_state_attributes` is set to a dict (never `None`)
both by `__init__` and by every coordinator-update callback on any reachable
entity state, each time equal to `get_extra_state_attributes() or {}`
against the coordinator state seen at that moment. -/
theorem c6_extra_attributes_always_dict {V : Type}
    (desc : PolestarEntityDescription V)
    (hdict : dictTruthy desc.data_extra_state_attributes = true) :
    (∀ coord : PolestarCoordinator V,
      (PolestarEntity.init coord desc)._attr_extra_state_attributes
        = some (orEmptyDict (get_extra_state_attributes coord desc)))
    ∧ (∀ (coord : PolestarCoordinator V) (e : PolestarEntity V), EntityReachable desc e →
      (handle_coordinator_update coord e)._attr_extra_state_attributes
        = some (orEmptyDict (get_extra_state_attributes coord desc))) := by
  constructor
  · intro coord
    unfold PolestarEntity.init
    simp [hdict]
  · intro coord e he
    have hs := reachable_extra_isSome hdict he
    have hdesc := reachable_entity_description he
    unfold handle_coordinator_update
    simp [hs, hdesc]

/-- C6 witness: the extra attributes after construction against
`sampleCoordinator`, and after an update callback observing
`falsyCoordinator`, are both concrete dicts, never `None`. -/
theorem c6_witness :
    (PolestarEntity.init sampleCoordinator descExtra)._attr_extra_state_attributes
      = some [("charge_level", some 42), ("missing", (none : Option Nat))]
    ∧ (handle_coordinator_update falsyCoordinator
        (PolestarEntity.init sampleCoordinator descExtra))._attr_extra_state_attributes
      = some [("charge_level", some 7), ("missing", (none : Option Nat))] :=
  ⟨((c6_extra_attributes_always_dict descExtra (by rfl)).1 sampleCoordinator).trans (by rfl),
   ((c6_extra_attributes_always_dict descExtra (by rfl)).2 falsyCoordinator
      (PolestarEntity.init sampleCoordinator descExtra)
      (EntityReachable.init sampleCoordinator)).trans (by rfl)⟩

/-- C7: with `data_source` and a (truthy) `data_extra_state_attributes`
mapping configured, when the coordinator's sub-object is not `None` the
returned dict has exactly the mapping's keys, each bound to
`getattr(data, attribute, None)`, which is `None` when the attribute is
absent or holds `None`. -/
theorem c7_extra_attributes_shape {V : Type}
    (coord : PolestarCoordinator V) (desc : PolestarEntityDescription V)
    (src : PolestarEntityDataSource) (mapping : List (String × String)) (d : DataObject V)
    (hds : desc.data_source = some src)
    (hm : desc.data_extra_state_attributes = some mapping)
    (hne : mapping.isEmpty = false)
    (hd : coord.getSource src = some d) :
    get_extra_state_attributes coord desc
      = some (mapping.map fun p => (p.1, d.getattr p.2))
    ∧ (mapping.map fun p => (p.1, d.getattr p.2)).map Prod.fst = mapping.map Prod.fst := by
  constructor
  · unfold get_extra_state_attributes
    rw [hds, hm]
    simp [sourceValueTruthy_eq_true, hne, hd, hasattr_guard_eq_getattr]
  · simp

/-- C7 witness: the configured keys `charge_level` and `missing` come back
bound to the battery's `charge` value and to `None` respectively. -/
theorem c7_witness :
    get_extra_state_attributes sampleCoordinator descExtra
      = some [("charge_level", some 42), ("missing", (none : Option Nat))] :=
  ((c7_extra_attributes_shape sampleCoordinator descExtra
      PolestarEntityDataSource.BATTERY [("charge_level", "charge"), ("missing", "no_such")]
      sampleData rfl rfl rfl rfl).1).trans (by rfl)

/-- C8: `get_native_value` is deterministic: run twice from the same state,
the second call (from the state the first call left behind) returns the same
result as the first. -/
theorem c8_native_value_deterministic {V : Type} (w : World V) :
    (get_native_value_st ((get_native_value_st w).2)).1 = (get_native_value_st w).1 := by
  rw [get_native_value_st_frame]

/-- C9: the two getters test sub-object availability differently: on a falsy
but non-`None` sub-object, `get_native_value` (which tests `not data`)
returns `None`, while `get_extra_state_attributes` (which tests
`data is None`) proceeds and reads the attributes off it. -/
theorem c9_truthiness_vs_none_divergence {V : Type}
    (coord : PolestarCoordinator V) (desc : PolestarEntityDescription V)
    (src : PolestarEntityDataSource) (attr : String)
    (mapping : List (String × String)) (d : DataObject V)
    (hds : desc.data_source = some src) (hat : desc.data_state_attribute = some attr)
    (htr : stringTruthy attr = true)
    (hm : desc.data_extra_state_attributes = some mapping)
    (hne : mapping.isEmpty = false)
    (hd : coord.getSource src = some d) (hfalsy : d.truthy = false) :
    get_native_value coord desc = NativeValueResult.value none
    ∧ get_extra_state_attributes coord desc
      = some (mapping.map fun p => (p.1, d.getattr p.2)) := by
  constructor
  · unfold get_native_value
    rw [hds, hat]
    simp [sourceValueTruthy_eq_true, htr, hd, hfalsy]
  · unfold get_extra_state_attributes
    rw [hds, hm]
    simp [sourceValueTruthy_eq_true, hne, hd, hasattr_guard_eq_getattr]

/-- C9 witness: on the falsy battery object carrying `charge = 7`, the
native value is `None` while the extra attributes still read `7`. -/
theorem c9_witness :
    get_native_value falsyCoordinator descExtra = NativeValueResult.value none
    ∧ get_extra_state_attributes falsyCoordinator descExtra
      = some [("charge_level", some 7), ("missing", (none : Option Nat))] :=
  ⟨(c9_truthiness_vs_none_divergence falsyCoordinator descExtra
      PolestarEntityDataSource.BATTERY "charge"
      [("charge_level", "charge"), ("missing", "no_such")] falsyData
      rfl rfl rfl rfl rfl rfl rfl).1,
   ((c9_truthiness_vs_none_divergence falsyCoordinator descExtra
      PolestarEntityDataSource.BATTERY "charge"
      [("charge_level", "charge"), ("missing", "no_such")] falsyData
      rfl rfl rfl rfl rfl rfl rfl).2).trans (by rfl)⟩

/-- C10: the identifier strings set by `__init__` are fully determined by
the coordinator and the descriptor key: `_attr_unique_id` is
`polestar_<vin>_<key>`, `entity_id` is `<DOMAIN>.polestar_<short id>_<key>`,
and `_attr_translation_key` is `polestar_<key>`. -/
theorem c10_identifier_strings {V : Type}
    (coord : PolestarCoordinator V) (desc : PolestarEntityDescription V) :
    (PolestarEntity.init coord desc)._attr_unique_id
      = "polestar_" ++ coord.vin ++ "_" ++ desc.key
    ∧ (PolestarEntity.init coord desc).entity_id
      = DOMAIN ++ ".polestar_" ++ coord.get_short_id ++ "_" ++ desc.key
    ∧ (PolestarEntity.init coord desc)._attr_translation_key
      = "polestar_" ++ desc.key :=
  ⟨rfl, rfl, rfl⟩

end PolestarApi
